import Mathlib

/-!
Verification of the debate-timer core: a shallow embedding of the voice
selection chain (`app/lib/tts.ts`), the spoken remaining-time phrases, the
countdown timer state machine (`app/debate/page.tsx`), and the speech queue
discipline of `speak`, together with proofs of the specified properties.

String primitives of the source (`toLowerCase`, `startsWith`, `includes`,
`split` at the dash) are embedded as structurally recursive functions over the
character list of a `String`, so that every definition evaluates inside the
kernel.  The source only ever compares ASCII locale tags and voice names, on
which these agree with the JavaScript operations.
-/

namespace Debate

/-! ## Character-level string primitives -/

/-- `pat.isPrefixOf l` for character lists: JavaScript `startsWith`. -/
def listStarts : List Char → List Char → Bool
  | [], _ => true
  | _ :: _, [] => false
  | a :: pat, b :: l => a == b && listStarts pat l

/-- JavaScript `s.startsWith(pat)`. -/
def strStarts (s pat : String) : Bool := listStarts pat.data s.data

/-- JavaScript `s.toLowerCase()` (ASCII, via `Char.toLower`). -/
def lowerStr (s : String) : String := ⟨s.data.map Char.toLower⟩

/-- `hasSub sub l`: does `l` contain `sub` as a contiguous sublist? -/
def hasSub (sub : List Char) : List Char → Bool
  | [] => listStarts sub []
  | c :: rest => listStarts sub (c :: rest) || hasSub sub rest

/-- JavaScript `s.includes(sub)` (substring containment). -/
def containsSubstr (s sub : String) : Bool := hasSub sub.data s.data

/-- JavaScript split at the dash, first segment: the text before the first dash. -/
def primarySubtag (s : String) : String := ⟨s.data.takeWhile (fun c => c != '-')⟩

/-! ## Voice selection (`app/lib/tts.ts`) -/

/-- A platform synthesis voice: `voiceURI`, `lang`, display `name`. -/
structure Voice where
  voiceURI : String
  lang : String
  name : String
deriving DecidableEq

/-- `norm` from tts.ts: lowercase for comparison via `toLowerCase`. -/
def norm (s : String) : String := lowerStr s

/-- Exact locale predicate used in step 2 of `pickVoice`:
`norm(x.lang) === target`. -/
def exactLangP (lang : String) (v : Voice) : Bool := norm v.lang == norm lang

/-- Locale-prefix predicate used in step 3 of `pickVoice`:
`norm(x.lang).startsWith(prefix)` with the primary subtag of the request. -/
def langStartsP (lang : String) (v : Voice) : Bool :=
  strStarts (norm v.lang) (primarySubtag (norm lang))

/-- The fixed brand/quality keyword list of `pickVoice` step 3.5. -/
def preferredBrands : List String := ["google", "microsoft", "natural", "neur", "online"]

/-- Step 1 of `pickVoice`: `if (requestedURI) { ... voices.find(v => v.voiceURI
=== requestedURI) ... }`.  An empty string is falsy in JavaScript, so it is
skipped like `null`. -/
def forcedMatch (voices : List Voice) (requestedURI : Option String) : Option Voice :=
  match requestedURI with
  | none => none
  | some uri => if uri = "" then none else voices.find? (fun v => v.voiceURI == uri)

/-- `pickVoice` from tts.ts, translated clause by clause: empty catalog guard,
forced URI, exact lang, first lang-prefix match, the brand heuristic over the
filtered prefix list, and the `voices[0]` fallback. -/
def pickVoice (voices : List Voice) (requestedURI : Option String) (lang : String) :
    Option Voice :=
  if voices.isEmpty then none
  else
    match forcedMatch voices requestedURI with
    | some exact => some exact
    | none =>
      match voices.find? (exactLangP lang) with
      | some v => some v
      | none =>
        match voices.find? (langStartsP lang) with
        | some v => some v
        | none =>
          let subtagMatches := voices.filter (langStartsP lang)
          if subtagMatches.isEmpty then voices.head?
          else
            match subtagMatches.find?
                (fun x => preferredBrands.any (fun k => containsSubstr (norm x.name) k)) with
            | some best => some best
            | none => subtagMatches.head?

/-- The simpler chain claimed to be extensionally equal to `pickVoice`:
forced identifier, then exact locale, then first locale-prefix match in
catalog order, then first catalog entry, then absent on empty catalog. -/
def pickVoiceSimple (voices : List Voice) (requestedURI : Option String) (lang : String) :
    Option Voice :=
  if voices.isEmpty then none
  else
    match forcedMatch voices requestedURI with
    | some exact => some exact
    | none =>
      match voices.find? (exactLangP lang) with
      | some v => some v
      | none =>
        match voices.find? (langStartsP lang) with
        | some v => some v
        | none => voices.head?

/-! ## Spoken remaining-time phrase (`remainingSpeechText` in `app/debate/page.tsx`) -/

/-- The two interface languages of `remainingSpeechText`: fr and es. -/
inductive Lang where
  | fr
  | es
deriving DecidableEq

/-- JavaScript `Math.floor(a / b)` on integers. -/
def jsFloorDiv (a b : Int) : Int := Int.fdiv a b

/-- JavaScript `a % b` on integers (remainder with the sign of the dividend). -/
def jsRem (a b : Int) : Int := Int.tmod a b

/-- The inline pluralization of the source: the letter s exactly when the value exceeds 1. -/
def pluralMark (n : Int) : String := if 1 < n then "s" else ""

/-- `remainingSpeechText(label, secondsLeft, lang)` from page.tsx, clause by
clause: minutes and seconds split, both-units / minutes-only / seconds-only
branches per language. -/
def remainingSpeechText (label : String) (secondsLeft : Int) (lang : Lang) : String :=
  let m := jsFloorDiv secondsLeft 60
  let s := jsRem secondsLeft 60
  match lang with
  | Lang.fr =>
    if 0 < m ∧ 0 < s then
      label ++ ", il te reste " ++ toString m ++ " minute" ++ pluralMark m ++
        " et " ++ toString s ++ " seconde" ++ pluralMark s ++ "."
    else if 0 < m then
      label ++ ", il te reste " ++ toString m ++ " minute" ++ pluralMark m ++ "."
    else
      label ++ ", il te reste " ++ toString s ++ " seconde" ++ pluralMark s ++ "."
  | Lang.es =>
    if 0 < m ∧ 0 < s then
      label ++ ", te quedan " ++ toString m ++ " minuto" ++ pluralMark m ++
        " y " ++ toString s ++ " segundo" ++ pluralMark s ++ "."
    else if 0 < m then
      label ++ ", te quedan " ++ toString m ++ " minuto" ++ pluralMark m ++ "."
    else
      label ++ ", te quedan " ++ toString s ++ " segundo" ++ pluralMark s ++ "."

/-- Modelled from the wording of the spec for comparison with the source: the same
phrase with the unit word singular exactly at value 1 and plural otherwise,
and a zero-valued unit omitted when the other unit is positive. -/
def specPluralMark (n : Int) : String := if n = 1 then "" else "s"

/-- The spec-side phrase: identical branch structure, but pluralized per the
rule of the spec (`specPluralMark`). -/
def specPhrase (label : String) (secondsLeft : Int) (lang : Lang) : String :=
  let m := jsFloorDiv secondsLeft 60
  let s := jsRem secondsLeft 60
  match lang with
  | Lang.fr =>
    if 0 < m ∧ 0 < s then
      label ++ ", il te reste " ++ toString m ++ " minute" ++ specPluralMark m ++
        " et " ++ toString s ++ " seconde" ++ specPluralMark s ++ "."
    else if 0 < m then
      label ++ ", il te reste " ++ toString m ++ " minute" ++ specPluralMark m ++ "."
    else
      label ++ ", il te reste " ++ toString s ++ " seconde" ++ specPluralMark s ++ "."
  | Lang.es =>
    if 0 < m ∧ 0 < s then
      label ++ ", te quedan " ++ toString m ++ " minuto" ++ specPluralMark m ++
        " y " ++ toString s ++ " segundo" ++ specPluralMark s ++ "."
    else if 0 < m then
      label ++ ", te quedan " ++ toString m ++ " minuto" ++ specPluralMark m ++ "."
    else
      label ++ ", te quedan " ++ toString s ++ " segundo" ++ specPluralMark s ++ "."

/-! ## The countdown timer (`Timer` in `app/debate/page.tsx`)

The component state is `timeLeft` (`useState(initialSeconds)`), `running`
(`useState(false)`) and the one-shot refs `warned30Ref` / `warned10Ref`;
`initialSeconds` is carried as `total`.  `isActive` is an input prop.  Each
`speak` call is recorded as an emitted `Event` carrying the spoken text. -/

/-- One announcement, tagged by its call site in the source, carrying the
spoken text. -/
inductive Event where
  | threshold30 (msg : String)
  | threshold10 (msg : String)
  | expired (msg : String)
  | remaining (msg : String)
deriving DecidableEq

/-- The `Timer` component state. -/
structure TimerState where
  total : Int
  timeLeft : Int
  running : Bool
  warned30 : Bool
  warned10 : Bool
deriving DecidableEq

/-- A freshly mounted `Timer` (also the result of the `[initialSeconds]`
effect): `timeLeft = initialSeconds`, not running, warning refs cleared. -/
def mkTimer (total : Int) : TimerState :=
  { total := total, timeLeft := total, running := false, warned30 := false, warned10 := false }

/-- The derived spec state of a timer.  `Running` is the `running` flag;
`timeLeft = total` with the timer stopped is the reset/idle configuration;
`timeLeft = 0` stopped is `Expired` (the start/pause button is disabled
exactly when `timeLeft === 0`); any other stopped state is `Paused`. -/
inductive Phase4 where
  | Idle
  | Running
  | Paused
  | Expired
deriving DecidableEq

/-- Map a timer state to its derived spec phase. -/
def stateOf (s : TimerState) : Phase4 :=
  if s.running = true then Phase4.Running
  else if s.timeLeft = s.total then Phase4.Idle
  else if s.timeLeft = 0 then Phase4.Expired
  else Phase4.Paused

/-- One interval callback of the `useEffect` tick loop.  The interval exists
only while `running && isActive && timeLeft > 0`; otherwise a tick delivers
nothing.  The body computes `next = t - 1`, fires the 30s/10s one-shot
warnings, and on `next <= 0` stops the timer, speaks the end text and clamps
to 0. -/
def tick (label : String) (isActive : Bool) (s : TimerState) : TimerState × List Event :=
  if s.running = true ∧ isActive = true ∧ 0 < s.timeLeft then
    let next := s.timeLeft - 1
    let e30 : List Event :=
      if next = 30 ∧ s.warned30 = false then
        [Event.threshold30 (label ++ ", quedan 30 segundos.")] else []
    let w30 : Bool := if next = 30 ∧ s.warned30 = false then true else s.warned30
    let e10 : List Event :=
      if next = 10 ∧ s.warned10 = false then
        [Event.threshold10 (label ++ ", quedan 10 segundos.")] else []
    let w10 : Bool := if next = 10 ∧ s.warned10 = false then true else s.warned10
    if next ≤ 0 then
      ({ s with timeLeft := 0, running := false, warned30 := w30, warned10 := w10 },
        e30 ++ e10 ++ [Event.expired ("Se acabó el tiempo para " ++ label ++ ".")])
    else
      ({ s with timeLeft := next, warned30 := w30, warned10 := w10 }, e30 ++ e10)
  else (s, [])

/-- `toggleRunning` from page.tsx: flip `running`; when the timer was running
(a pause), speak the remaining time first (interface language es). -/
def toggleRunning (label : String) (s : TimerState) : TimerState × List Event :=
  if s.running = true then
    ({ s with running := false },
      [Event.remaining (remainingSpeechText label s.timeLeft Lang.es)])
  else
    ({ s with running := true }, [])

/-- The start/pause button as the user can press it: it is rendered with
`disabled={timeLeft === 0}`, so at `timeLeft = 0` a press does nothing. -/
def pressToggle (label : String) (s : TimerState) : TimerState × List Event :=
  if s.timeLeft = 0 then (s, []) else toggleRunning label s

/-- `reset` from page.tsx: stop, restore `initialSeconds`, clear both warning
refs; no `speak` call. -/
def resetTimer (s : TimerState) : TimerState × List Event :=
  ({ s with running := false, timeLeft := s.total, warned30 := false, warned10 := false }, [])

/-- Deliver `n` tick callbacks in sequence, collecting emitted events. -/
def runTicks (label : String) (isActive : Bool) (s : TimerState) : Nat → TimerState × List Event
  | 0 => (s, [])
  | n + 1 =>
    let first := tick label isActive s
    let rest := runTicks label isActive first.1 n
    (rest.1, first.2 ++ rest.2)

/-- Count the events satisfying a classifier. -/
def countEvents (p : Event → Bool) (l : List Event) : Nat := (l.filter p).length

/-- Classifier for the expiry announcement. -/
def isExpiredEvent : Event → Bool
  | Event.expired _ => true
  | _ => false

/-- Classifier for the threshold-`t` announcement. -/
def isThresholdEvent (t : Nat) : Event → Bool
  | Event.threshold30 _ => t == 30
  | Event.threshold10 _ => t == 10
  | _ => false

/-- The one-shot ref recording whether threshold `t` has been announced. -/
def warnedFlag (t : Nat) (s : TimerState) : Bool :=
  if t = 30 then s.warned30 else s.warned10

/-! ## The speech queue discipline of `speak` (`app/lib/tts.ts`)

`speak` performs two atomic actions on the platform speech queue, separated
by the asynchronous `await waitForVoices()` suspension point: first
`synth.cancel()` (clears the queue), then `synth.speak(utter)` (enqueues the
utterance).  The platform plays the queue front first, in order. -/

/-- An atomic queue action of a `speak` call. -/
inductive SpeakAct where
  | cancel
  | issue (text : String)
deriving DecidableEq

/-- The action sequence of one `speak(text)` call, in source order:
cancel, then (after the voice wait) issue the utterance. -/
def speakScript (text : String) : List SpeakAct := [SpeakAct.cancel, SpeakAct.issue text]

/-- Effect of one action on the pending-utterance queue. -/
def applyAct (q : List String) : SpeakAct → List String
  | SpeakAct.cancel => []
  | SpeakAct.issue t => q ++ [t]

/-- Run a sequence of queue actions. -/
def runActs (q : List String) : List SpeakAct → List String
  | [] => q
  | a :: rest => runActs (applyAct q a) rest

/-- `Interleave l₁ l₂ l`: `l` is a cooperative interleaving of the two action
sequences `l₁` and `l₂`, each kept in order — the possible executions of two
`speak` calls on the single-threaded event loop. -/
inductive Interleave : List SpeakAct → List SpeakAct → List SpeakAct → Prop where
  | nil : Interleave [] [] []
  | left (a : SpeakAct) {xs ys zs : List SpeakAct} :
      Interleave xs ys zs → Interleave (a :: xs) ys (a :: zs)
  | right (a : SpeakAct) {xs ys zs : List SpeakAct} :
      Interleave xs ys zs → Interleave xs (a :: ys) (a :: zs)

/-! ## Helper lemmas -/

theorem find?_some_not_isEmpty {α : Type} (p : α → Bool) (l : List α) (v : α)
    (h : l.find? p = some v) : l.isEmpty = false := by
  cases l with
  | nil => simp [List.find?] at h
  | cons a t => rfl

@[simp]
theorem countEvents_nil (p : Event → Bool) : countEvents p [] = 0 := rfl

@[simp]
theorem countEvents_append (p : Event → Bool) (l1 l2 : List Event) :
    countEvents p (l1 ++ l2) = countEvents p l1 + countEvents p l2 := by
  simp [countEvents, List.filter_append]

@[simp]
theorem countEvents_cons (p : Event → Bool) (e : Event) (l : List Event) :
    countEvents p (e :: l) = (if p e then 1 else 0) + countEvents p l := by
  by_cases h : p e <;> simp [countEvents, List.filter_cons, h, Nat.add_comm]

/-- A stopped timer ignores every tick. -/
theorem runTicks_stopped (label : String) (active : Bool) (s : TimerState)
    (h : s.running = false) : ∀ n, runTicks label active s n = (s, []) := by
  intro n
  induction n with
  | zero => rfl
  | succ m ih =>
    have ht : tick label active s = (s, []) := by simp [tick, h]
    simp [runTicks, ht, ih]

/-- An active tick on a running timer with one second left: expiry. -/
theorem tick_expire (label : String) (s : TimerState)
    (hr : s.running = true) (htl : s.timeLeft = 1) :
    tick label true s =
      ({ s with timeLeft := 0, running := false },
        [Event.expired ("Se acabó el tiempo para " ++ label ++ ".")]) := by
  simp [tick, hr, htl]

/-- An active tick on a running timer with `m + 1 > 1` seconds left:
decrement to `m`, possibly firing the one-shot warnings. -/
theorem tick_normal (label : String) (s : TimerState) (m : Nat)
    (hr : s.running = true) (htl : s.timeLeft = ((m + 1 : Nat) : Int)) (hm : m ≠ 0) :
    tick label true s =
      ({ s with
          timeLeft := (m : Int),
          warned30 := (if (m : Int) = 30 ∧ s.warned30 = false then true else s.warned30),
          warned10 := (if (m : Int) = 10 ∧ s.warned10 = false then true else s.warned10) },
        (if (m : Int) = 30 ∧ s.warned30 = false
          then [Event.threshold30 (label ++ ", quedan 30 segundos.")] else []) ++
        (if (m : Int) = 10 ∧ s.warned10 = false
          then [Event.threshold10 (label ++ ", quedan 10 segundos.")] else [])) := by
  have hnext : s.timeLeft - 1 = (m : Int) := by rw [htl]; push_cast; ring
  have hpos : 0 < s.timeLeft := by rw [htl]; positivity
  have hnz : ¬ s.timeLeft - 1 ≤ 0 := by rw [hnext]; omega
  simp [tick, hr, hpos, hnext, hnz, hm]

/-- Ticking a running timer down from `n ≥ 1` with `n` active ticks reaches
0, stops the timer, preserves `total`, and fires exactly one expiry. -/
theorem runTicks_expiry (label : String) : ∀ (n : Nat) (s : TimerState),
    s.running = true → s.timeLeft = (n : Int) → 1 ≤ n →
    (runTicks label true s n).1.timeLeft = 0 ∧
    (runTicks label true s n).1.running = false ∧
    (runTicks label true s n).1.total = s.total ∧
    countEvents isExpiredEvent (runTicks label true s n).2 = 1 := by
  intro n
  induction n with
  | zero => intro s _ _ h1; omega
  | succ m ih =>
    intro s hr htl _
    by_cases hm : m = 0
    · subst hm
      have h1 : s.timeLeft = 1 := by rw [htl]; norm_num
      have he := tick_expire label s hr h1
      simp [runTicks, he, countEvents, isExpiredEvent]
    · have hn := tick_normal label s m hr htl hm
      have ih' := ih (tick label true s).1 (by rw [hn]; exact hr) (by rw [hn]) (by omega)
      constructor
      · rw [show (runTicks label true s (m + 1)).1 =
            (runTicks label true (tick label true s).1 m).1 from by simp [runTicks]]
        exact ih'.1
      constructor
      · rw [show (runTicks label true s (m + 1)).1 =
            (runTicks label true (tick label true s).1 m).1 from by simp [runTicks]]
        exact ih'.2.1
      constructor
      · rw [show (runTicks label true s (m + 1)).1 =
            (runTicks label true (tick label true s).1 m).1 from by simp [runTicks]]
        rw [ih'.2.2.1, hn]
      · rw [show (runTicks label true s (m + 1)).2 =
            (tick label true s).2 ++ (runTicks label true (tick label true s).1 m).2 from by
              simp [runTicks]]
        rw [countEvents_append, ih'.2.2.2, hn]
        split <;> split <;> simp [countEvents, isExpiredEvent, List.filter_append, List.filter]

/-- Threshold-30 events over an active run of `n` ticks on a running timer:
one exactly when the run crosses 30 (`30 < n`) with the one-shot ref clear. -/
theorem runTicks_count30 (label : String) : ∀ (n : Nat) (s : TimerState),
    s.running = true → s.timeLeft = (n : Int) →
    countEvents (isThresholdEvent 30) (runTicks label true s n).2 =
      if 30 < n ∧ s.warned30 = false then 1 else 0 := by
  intro n
  induction n with
  | zero =>
    intro s hr htl
    have hno : ¬(30 < 0 ∧ s.warned30 = false) := by rintro ⟨h, _⟩; omega
    simp [runTicks, hno]
  | succ m ih =>
    intro s hr htl
    by_cases hm : m = 0
    · subst hm
      have h1 : s.timeLeft = 1 := by rw [htl]; norm_num
      have he := tick_expire label s hr h1
      have hno : ¬(30 < 0 + 1 ∧ s.warned30 = false) := by rintro ⟨h, _⟩; omega
      simp [runTicks, he, countEvents, isThresholdEvent, hno]
    · have hn := tick_normal label s m hr htl hm
      have ih' := ih (tick label true s).1 (by rw [hn]; exact hr) (by rw [hn])
      rw [show (runTicks label true s (m + 1)).2 =
          (tick label true s).2 ++ (runTicks label true (tick label true s).1 m).2 from by
            simp [runTicks]]
      rw [countEvents_append, ih', hn]
      by_cases hc : (m : Int) = 30 ∧ s.warned30 = false
      · have hm30 : m = 30 := by have := hc.1; omega
        simp [hc.1, hc.2, hm30, countEvents, isThresholdEvent]
      · have h10 : countEvents (isThresholdEvent 30)
            (if (m : Int) = 10 ∧ s.warned10 = false
              then [Event.threshold10 (label ++ ", quedan 10 segundos.")] else []) = 0 := by
          split <;> simp [countEvents, isThresholdEvent]
        have h30nil : (if (m : Int) = 30 ∧ s.warned30 = false
            then [Event.threshold30 (label ++ ", quedan 30 segundos.")] else [])
            = ([] : List Event) := if_neg hc
        rw [countEvents_append, h30nil, h10, countEvents_nil]
        rw [show (if (m : Int) = 30 ∧ s.warned30 = false then true else s.warned30)
            = s.warned30 from if_neg hc]
        by_cases hw : s.warned30 = false
        · have hne : (m : Int) ≠ 30 := fun he => hc ⟨he, hw⟩
          simp only [hw, and_true]
          split_ifs <;> omega
        · have hw' : s.warned30 = true := by revert hw; cases s.warned30 <;> simp
          simp [hw']

/-- Threshold-10 events over an active run of `n` ticks on a running timer:
one exactly when the run crosses 10 (`10 < n`) with the one-shot ref clear. -/
theorem runTicks_count10 (label : String) : ∀ (n : Nat) (s : TimerState),
    s.running = true → s.timeLeft = (n : Int) →
    countEvents (isThresholdEvent 10) (runTicks label true s n).2 =
      if 10 < n ∧ s.warned10 = false then 1 else 0 := by
  intro n
  induction n with
  | zero =>
    intro s hr htl
    have hno : ¬(10 < 0 ∧ s.warned10 = false) := by rintro ⟨h, _⟩; omega
    simp [runTicks, hno]
  | succ m ih =>
    intro s hr htl
    by_cases hm : m = 0
    · subst hm
      have h1 : s.timeLeft = 1 := by rw [htl]; norm_num
      have he := tick_expire label s hr h1
      have hno : ¬(10 < 0 + 1 ∧ s.warned10 = false) := by rintro ⟨h, _⟩; omega
      simp [runTicks, he, countEvents, isThresholdEvent, hno]
    · have hn := tick_normal label s m hr htl hm
      have ih' := ih (tick label true s).1 (by rw [hn]; exact hr) (by rw [hn])
      rw [show (runTicks label true s (m + 1)).2 =
          (tick label true s).2 ++ (runTicks label true (tick label true s).1 m).2 from by
            simp [runTicks]]
      rw [countEvents_append, ih', hn]
      by_cases hc : (m : Int) = 10 ∧ s.warned10 = false
      · have hm10 : m = 10 := by have := hc.1; omega
        simp [hc.1, hc.2, hm10, countEvents, isThresholdEvent]
      · have h30 : countEvents (isThresholdEvent 10)
            (if (m : Int) = 30 ∧ s.warned30 = false
              then [Event.threshold30 (label ++ ", quedan 30 segundos.")] else []) = 0 := by
          split <;> simp [countEvents, isThresholdEvent]
        have h10nil : (if (m : Int) = 10 ∧ s.warned10 = false
            then [Event.threshold10 (label ++ ", quedan 10 segundos.")] else [])
            = ([] : List Event) := if_neg hc
        rw [countEvents_append, h30, h10nil, countEvents_nil]
        rw [show (if (m : Int) = 10 ∧ s.warned10 = false then true else s.warned10)
            = s.warned10 from if_neg hc]
        by_cases hw : s.warned10 = false
        · have hne : (m : Int) ≠ 10 := fun he => hc ⟨he, hw⟩
          simp only [hw, and_true]
          split_ifs <;> omega
        · have hw' : s.warned10 = true := by revert hw; cases s.warned10 <;> simp
          simp [hw']

theorem find?_none_filter_nil {α : Type} (p : α → Bool) :
    ∀ l : List α, l.find? p = none → l.filter p = [] := by
  intro l
  induction l with
  | nil => intro _; rfl
  | cons a t ih =>
    intro h
    cases hp : p a with
    | true =>
      rw [List.find?_cons_of_pos _ hp] at h
      exact absurd h (by simp)
    | false =>
      rw [List.find?_cons_of_neg _ (by simp [hp])] at h
      rw [List.filter_cons_of_neg (by simp [hp])]
      exact ih h

/-- Pressing start on a freshly mounted timer with a nonzero duration. -/
theorem pressToggle_start (label : String) (total : Int) (h : ¬ total = 0) :
    pressToggle label (mkTimer total) = (⟨total, total, true, false, false⟩, []) := by
  simp [pressToggle, mkTimer, toggleRunning, h]

/-- An inactive timer ignores every tick, whatever its state. -/
theorem runTicks_inactive (label : String) (s : TimerState) :
    ∀ n, runTicks label false s n = (s, []) := by
  intro n
  induction n with
  | zero => rfl
  | succ m ih =>
    have ht : tick label false s = (s, []) := by simp [tick]
    simp [runTicks, ht, ih]

/-- The events of one tick, written as one expression. -/
theorem tick_snd (label : String) (active : Bool) (s : TimerState) :
    (tick label active s).2 =
      (if s.running = true ∧ active = true ∧ 0 < s.timeLeft then
        (if s.timeLeft - 1 = 30 ∧ s.warned30 = false
          then [Event.threshold30 (label ++ ", quedan 30 segundos.")] else []) ++
        (if s.timeLeft - 1 = 10 ∧ s.warned10 = false
          then [Event.threshold10 (label ++ ", quedan 10 segundos.")] else []) ++
        (if s.timeLeft - 1 ≤ 0
          then [Event.expired ("Se acabó el tiempo para " ++ label ++ ".")] else [])
      else []) := by
  by_cases hg : s.running = true ∧ active = true ∧ 0 < s.timeLeft
  · by_cases hz : s.timeLeft - 1 ≤ 0
    · simp [tick, hg, hz]
    · simp [tick, hg, hz]
  · simp [tick, hg]

/-- With the 30s one-shot ref set, no tick emits a threshold-30 event. -/
theorem tick_count_flag30 (label : String) (active : Bool) (s : TimerState)
    (hw : s.warned30 = true) :
    countEvents (isThresholdEvent 30) (tick label active s).2 = 0 := by
  rw [tick_snd]
  split_ifs <;> simp_all [countEvents, isThresholdEvent]

/-- With the 10s one-shot ref set, no tick emits a threshold-10 event. -/
theorem tick_count_flag10 (label : String) (active : Bool) (s : TimerState)
    (hw : s.warned10 = true) :
    countEvents (isThresholdEvent 10) (tick label active s).2 = 0 := by
  rw [tick_snd]
  split_ifs <;> simp_all [countEvents, isThresholdEvent]

/-- A tick that is not an active running crossing of 30 emits no
threshold-30 event. -/
theorem tick_count_nocross30 (label : String) (active : Bool) (s : TimerState)
    (h : ¬(s.running = true ∧ active = true ∧ s.timeLeft = 31)) :
    countEvents (isThresholdEvent 30) (tick label active s).2 = 0 := by
  rw [tick_snd]
  by_cases h1 : s.running = true ∧ active = true ∧ 0 < s.timeLeft
  · have h2 : ¬(s.timeLeft - 1 = 30 ∧ s.warned30 = false) := by
      rintro ⟨ha, _⟩
      exact h ⟨h1.1, h1.2.1, by omega⟩
    rw [if_pos h1, if_neg h2]
    simp only [List.nil_append, countEvents_append]
    have e10z : countEvents (isThresholdEvent 30)
        (if s.timeLeft - 1 = 10 ∧ s.warned10 = false
          then [Event.threshold10 (label ++ ", quedan 10 segundos.")] else []) = 0 := by
      split <;> simp [countEvents, isThresholdEvent]
    have exz : countEvents (isThresholdEvent 30)
        (if s.timeLeft - 1 ≤ 0
          then [Event.expired ("Se acabó el tiempo para " ++ label ++ ".")] else []) = 0 := by
      split <;> simp [countEvents, isThresholdEvent]
    rw [e10z, exz]
  · rw [if_neg h1]; rfl

/-- A tick that is not an active running crossing of 10 emits no
threshold-10 event. -/
theorem tick_count_nocross10 (label : String) (active : Bool) (s : TimerState)
    (h : ¬(s.running = true ∧ active = true ∧ s.timeLeft = 11)) :
    countEvents (isThresholdEvent 10) (tick label active s).2 = 0 := by
  rw [tick_snd]
  by_cases h1 : s.running = true ∧ active = true ∧ 0 < s.timeLeft
  · have h2 : ¬(s.timeLeft - 1 = 10 ∧ s.warned10 = false) := by
      rintro ⟨ha, _⟩
      exact h ⟨h1.1, h1.2.1, by omega⟩
    rw [if_pos h1, if_neg h2]
    simp only [countEvents_append]
    have e30z : countEvents (isThresholdEvent 10)
        (if s.timeLeft - 1 = 30 ∧ s.warned30 = false
          then [Event.threshold30 (label ++ ", quedan 30 segundos.")] else []) = 0 := by
      split <;> simp [countEvents, isThresholdEvent]
    have exz : countEvents (isThresholdEvent 10)
        (if s.timeLeft - 1 ≤ 0
          then [Event.expired ("Se acabó el tiempo para " ++ label ++ ".")] else []) = 0 := by
      split <;> simp [countEvents, isThresholdEvent]
    rw [e30z, exz]
    rfl
  · rw [if_neg h1]; rfl

/-- The source marker and the spec marker agree on every value `≥ 1`. -/
theorem pluralMark_eq_spec (n : Int) (h : 1 ≤ n) : pluralMark n = specPluralMark n := by
  unfold pluralMark specPluralMark
  by_cases hn : n = 1
  · subst hn; norm_num
  · rw [if_pos (by omega), if_neg hn]

/-! ## Claims -/

/-- C7: Reset, from any state, restores `remainingSeconds` to
`totalSeconds`, clears both one-shot refs, stops the timer, maps to the
`Idle` phase, emits no announcement, and is idempotent. -/
theorem c7_reset_idempotent (s : TimerState) :
    (resetTimer s).1.timeLeft = s.total ∧
    (resetTimer s).1.warned30 = false ∧
    (resetTimer s).1.warned10 = false ∧
    (resetTimer s).1.running = false ∧
    stateOf (resetTimer s).1 = Phase4.Idle ∧
    (resetTimer s).2 = [] ∧
    resetTimer (resetTimer s).1 = resetTimer s := by
  refine ⟨rfl, rfl, rfl, rfl, ?_, rfl, rfl⟩
  simp [stateOf, resetTimer]

/-- C9: deactivation stops tick delivery without touching the timer state —
any number of ticks delivered while inactive changes nothing and emits
nothing, the derived phase (in particular `Running`) is preserved, and the
next active tick behaves exactly as if no deactivation had happened. -/
theorem c9_deactivation_frame (label : String) (s : TimerState) (n : Nat) :
    runTicks label false s n = (s, []) ∧
    stateOf (runTicks label false s n).1 = stateOf s ∧
    tick label true (runTicks label false s n).1 = tick label true s := by
  have h := runTicks_inactive label s n
  exact ⟨h, by rw [h], by rw [h]⟩

/-- C10: the brand/quality step of `pickVoice` never influences the result
(it is only reached when the prefix-filtered list is empty), so `pickVoice`
is extensionally equal to the simpler chain `pickVoiceSimple`. -/
theorem c10_pickVoice_eq_simple (voices : List Voice) (uri : Option String) (lang : String) :
    pickVoice voices uri lang = pickVoiceSimple voices uri lang := by
  unfold pickVoice pickVoiceSimple
  by_cases h0 : voices.isEmpty = true
  · rw [if_pos h0, if_pos h0]
  · rw [if_neg h0, if_neg h0]
    cases hf : forcedMatch voices uri with
    | some v => rfl
    | none =>
      cases he : voices.find? (exactLangP lang) with
      | some v => rfl
      | none =>
        cases hp : voices.find? (langStartsP lang) with
        | some v => rfl
        | none =>
          have hfil : voices.filter (langStartsP lang) = [] :=
            find?_none_filter_nil (langStartsP lang) voices hp
          simp [hfil]

/-- C1: for every `totalSeconds > 0`, starting the timer from Idle and
delivering `totalSeconds` ticks with the timer active throughout drives the
derived state to `Expired` and `remainingSeconds` to 0, with exactly one
expiry announcement emitted during the run (and none by the start press). -/
theorem c1_run_to_expiry (label : String) (total : Int) (h : 0 < total) :
    stateOf (runTicks label true (pressToggle label (mkTimer total)).1 total.toNat).1
      = Phase4.Expired ∧
    (runTicks label true (pressToggle label (mkTimer total)).1 total.toNat).1.timeLeft = 0 ∧
    countEvents isExpiredEvent
      (runTicks label true (pressToggle label (mkTimer total)).1 total.toNat).2 = 1 ∧
    (pressToggle label (mkTimer total)).2 = [] := by
  have hne : ¬ total = 0 := by omega
  have hstart := pressToggle_start label total hne
  rw [hstart]
  obtain ⟨hl, hrn, htot, hcnt⟩ :=
    runTicks_expiry label total.toNat ⟨total, total, true, false, false⟩ rfl
      (by rw [Int.toNat_of_nonneg (by omega : (0 : Int) ≤ total)]) (by omega)
  refine ⟨?_, hl, hcnt, rfl⟩
  have hnz : ¬ ((0 : Int) = total) := by omega
  simp [stateOf, hrn, hl, htot, hnz]

/-- Witness for C1 at `total = 3`. -/
theorem c1_run_to_expiry_witness :
    (0 : Int) < 3 ∧
    (stateOf (runTicks "A" true (pressToggle "A" (mkTimer 3)).1 (3 : Int).toNat).1
        = Phase4.Expired ∧
      (runTicks "A" true (pressToggle "A" (mkTimer 3)).1 (3 : Int).toNat).1.timeLeft = 0 ∧
      countEvents isExpiredEvent
        (runTicks "A" true (pressToggle "A" (mkTimer 3)).1 (3 : Int).toNat).2 = 1 ∧
      (pressToggle "A" (mkTimer 3)).2 = []) :=
  ⟨by decide, c1_run_to_expiry "A" 3 (by decide)⟩

/-- C2: for a threshold `t ∈ {30, 10}` and `totalSeconds > t`, a full active
run from the start fires the threshold-`t` announcement exactly once; a tick
with the one-shot ref for `t` already set emits no threshold-`t` event
(repeated ticks at or past the value never re-emit); a tick that is not an
active running crossing of `t` (that is, not a decrement from `t + 1` while
running and active) emits no threshold-`t` event; and Reset clears the
one-shot ref for `t`. -/
theorem c2_threshold_once (label : String) (t : Nat) (total : Int)
    (s s2 : TimerState) (active : Bool)
    (ht : t = 30 ∨ t = 10) (htot : (t : Int) < total)
    (hflag : warnedFlag t s = true)
    (hnc : ¬(s2.running = true ∧ active = true ∧ s2.timeLeft = (t : Int) + 1)) :
    countEvents (isThresholdEvent t)
      (runTicks label true (pressToggle label (mkTimer total)).1 total.toNat).2 = 1 ∧
    countEvents (isThresholdEvent t) (tick label active s).2 = 0 ∧
    countEvents (isThresholdEvent t) (tick label active s2).2 = 0 ∧
    warnedFlag t (resetTimer s).1 = false := by
  have hne : ¬ total = 0 := by rcases ht with rfl | rfl <;> omega
  have hstart := pressToggle_start label total hne
  rcases ht with rfl | rfl
  · refine ⟨?_, ?_, ?_, ?_⟩
    · rw [hstart]
      rw [runTicks_count30 label total.toNat ⟨total, total, true, false, false⟩ rfl
        (by rw [Int.toNat_of_nonneg (by omega : (0 : Int) ≤ total)])]
      rw [if_pos ⟨by omega, rfl⟩]
    · exact tick_count_flag30 label active s (by simpa [warnedFlag] using hflag)
    · refine tick_count_nocross30 label active s2 ?_
      intro hx
      exact hnc ⟨hx.1, hx.2.1, by rw [hx.2.2]; norm_num⟩
    · simp [warnedFlag, resetTimer]
  · refine ⟨?_, ?_, ?_, ?_⟩
    · rw [hstart]
      rw [runTicks_count10 label total.toNat ⟨total, total, true, false, false⟩ rfl
        (by rw [Int.toNat_of_nonneg (by omega : (0 : Int) ≤ total)])]
      rw [if_pos ⟨by omega, rfl⟩]
    · exact tick_count_flag10 label active s (by simpa [warnedFlag] using hflag)
    · refine tick_count_nocross10 label active s2 ?_
      intro hx
      exact hnc ⟨hx.1, hx.2.1, by rw [hx.2.2]; norm_num⟩
    · simp [warnedFlag, resetTimer]

/-- Witness for C2 at `t = 30`, `total = 40`. -/
theorem c2_threshold_once_witness :
    ((30 : Nat) = 30 ∨ (30 : Nat) = 10) ∧ ((30 : Nat) : Int) < 40 ∧
    warnedFlag 30 ⟨40, 40, true, true, false⟩ = true ∧
    ¬((⟨5, 5, false, false, false⟩ : TimerState).running = true ∧ true = true ∧
      (⟨5, 5, false, false, false⟩ : TimerState).timeLeft = ((30 : Nat) : Int) + 1) ∧
    (countEvents (isThresholdEvent 30)
        (runTicks "A" true (pressToggle "A" (mkTimer 40)).1 (40 : Int).toNat).2 = 1 ∧
      countEvents (isThresholdEvent 30) (tick "A" true ⟨40, 40, true, true, false⟩).2 = 0 ∧
      countEvents (isThresholdEvent 30) (tick "A" true ⟨5, 5, false, false, false⟩).2 = 0 ∧
      warnedFlag 30 (resetTimer ⟨40, 40, true, true, false⟩).1 = false) :=
  ⟨by decide, by decide, by decide, by decide,
    c2_threshold_once "A" 30 40 ⟨40, 40, true, true, false⟩ ⟨5, 5, false, false, false⟩ true
      (by decide) (by decide) (by decide) (by decide)⟩

/-- C8: the bound `0 ≤ remainingSeconds ≤ totalSeconds` is preserved by a
tick (active or not), by a start/pause press, and by a reset, from any state
satisfying it, and holds for a freshly mounted timer with `totalSeconds ≥ 0`;
`total` is never modified by a tick; and an active tick on a running timer
with `remainingSeconds ≤ 1` clamps the value to exactly 0, never below. -/
theorem c8_bounds_invariant (label : String) (active : Bool) (s s2 : TimerState) (t0 : Int)
    (hlo : 0 ≤ s.timeLeft) (hhi : s.timeLeft ≤ s.total)
    (h2r : s2.running = true) (h2lo : 0 ≤ s2.timeLeft) (h2hi : s2.timeLeft ≤ 1)
    (ht0 : 0 ≤ t0) :
    (0 ≤ (tick label active s).1.timeLeft ∧
      (tick label active s).1.timeLeft ≤ (tick label active s).1.total ∧
      (tick label active s).1.total = s.total) ∧
    (0 ≤ (pressToggle label s).1.timeLeft ∧
      (pressToggle label s).1.timeLeft ≤ (pressToggle label s).1.total) ∧
    (0 ≤ (resetTimer s).1.timeLeft ∧ (resetTimer s).1.timeLeft ≤ (resetTimer s).1.total) ∧
    (tick label true s2).1.timeLeft = 0 ∧
    (0 ≤ (mkTimer t0).timeLeft ∧ (mkTimer t0).timeLeft ≤ (mkTimer t0).total) := by
  refine ⟨?_, ?_, ?_, ?_, ?_⟩
  · by_cases hg : s.running = true ∧ active = true ∧ 0 < s.timeLeft
    · by_cases hz : s.timeLeft - 1 ≤ 0
      · simp only [tick, hg, hz, if_pos, if_true]
        simp [hg, hz]
        omega
      · simp only [tick]
        rw [if_pos hg, if_neg hz]
        simp
        omega
    · simp [tick, hg]
      omega
  · by_cases hp : s.timeLeft = 0
    · simp [pressToggle, hp]
      omega
    · by_cases hr : s.running = true
      · simp [pressToggle, toggleRunning, hp, hr]
        omega
      · simp [pressToggle, toggleRunning, hp, hr]
        omega
  · simp [resetTimer]
    omega
  · by_cases hp : 0 < s2.timeLeft
    · have h1 : s2.timeLeft = 1 := by omega
      have := tick_expire label s2 h2r h1
      rw [this]
    · simp [tick, hp]
      omega
  · simp [mkTimer]
    omega

/-- Witness for C8. -/
theorem c8_bounds_invariant_witness :
    (0 : Int) ≤ (⟨120, 45, true, false, false⟩ : TimerState).timeLeft ∧
    (⟨120, 45, true, false, false⟩ : TimerState).timeLeft ≤
      (⟨120, 45, true, false, false⟩ : TimerState).total ∧
    (⟨60, 1, true, false, false⟩ : TimerState).running = true ∧
    (0 : Int) ≤ (⟨60, 1, true, false, false⟩ : TimerState).timeLeft ∧
    (⟨60, 1, true, false, false⟩ : TimerState).timeLeft ≤ 1 ∧
    (0 : Int) ≤ 60 ∧
    ((0 ≤ (tick "A" true ⟨120, 45, true, false, false⟩).1.timeLeft ∧
        (tick "A" true ⟨120, 45, true, false, false⟩).1.timeLeft ≤
          (tick "A" true ⟨120, 45, true, false, false⟩).1.total ∧
        (tick "A" true ⟨120, 45, true, false, false⟩).1.total =
          (⟨120, 45, true, false, false⟩ : TimerState).total) ∧
      (0 ≤ (pressToggle "A" ⟨120, 45, true, false, false⟩).1.timeLeft ∧
        (pressToggle "A" ⟨120, 45, true, false, false⟩).1.timeLeft ≤
          (pressToggle "A" ⟨120, 45, true, false, false⟩).1.total) ∧
      (0 ≤ (resetTimer ⟨120, 45, true, false, false⟩).1.timeLeft ∧
        (resetTimer ⟨120, 45, true, false, false⟩).1.timeLeft ≤
          (resetTimer ⟨120, 45, true, false, false⟩).1.total) ∧
      (tick "A" true ⟨60, 1, true, false, false⟩).1.timeLeft = 0 ∧
      (0 ≤ (mkTimer 60).timeLeft ∧ (mkTimer 60).timeLeft ≤ (mkTimer 60).total)) :=
  ⟨by decide, by decide, by decide, by decide, by decide, by decide,
    c8_bounds_invariant "A" true ⟨120, 45, true, false, false⟩ ⟨60, 1, true, false, false⟩ 60
      (by decide) (by decide) (by decide) (by decide) (by decide) (by decide)⟩

/-- C3 (counterexample): two prefix matches for fr-FR, the second carrying
the brand keyword google in its display name and the first carrying none;
`pickVoice` returns the first prefix match in catalog order, not the
quality-keyword voice, refuting the claimed preference step. -/
theorem c3_counterexample :
    exactLangP "fr-FR" ⟨"u1", "fr-CA", "Plain Voice"⟩ = false ∧
    exactLangP "fr-FR" ⟨"u2", "fr-CA", "Google francais"⟩ = false ∧
    langStartsP "fr-FR" ⟨"u1", "fr-CA", "Plain Voice"⟩ = true ∧
    langStartsP "fr-FR" ⟨"u2", "fr-CA", "Google francais"⟩ = true ∧
    (preferredBrands.any fun k => containsSubstr (norm "Google francais") k) = true ∧
    (preferredBrands.any fun k => containsSubstr (norm "Plain Voice") k) = false ∧
    pickVoice [⟨"u1", "fr-CA", "Plain Voice"⟩, ⟨"u2", "fr-CA", "Google francais"⟩] none
        "fr-FR" = some ⟨"u1", "fr-CA", "Plain Voice"⟩ ∧
    pickVoice [⟨"u1", "fr-CA", "Plain Voice"⟩, ⟨"u2", "fr-CA", "Google francais"⟩] none
        "fr-FR" ≠ some ⟨"u2", "fr-CA", "Google francais"⟩ := by
  decide

/-- C3 (amended): the fallback chain of `pickVoice`, first match winning: a
present, nonempty and found forced identifier; otherwise the first exact
case-insensitive locale match; otherwise the first locale-prefix match in
catalog order, regardless of quality keywords in display names; otherwise
the first catalog entry; absent on an empty catalog. -/
theorem c3_fallback_chain (lang uriA : String) (A B C D : List Voice) (vA vB vC : Voice)
    (hA1 : uriA ≠ "") (hA2 : A.find? (fun w => w.voiceURI == uriA) = some vA)
    (hB : B.find? (exactLangP lang) = some vB)
    (hC1 : C.find? (exactLangP lang) = none) (hC2 : C.find? (langStartsP lang) = some vC)
    (hD1 : D.find? (exactLangP lang) = none) (hD2 : D.find? (langStartsP lang) = none) :
    pickVoice A (some uriA) lang = some vA ∧
    pickVoice B none lang = some vB ∧
    pickVoice C none lang = some vC ∧
    pickVoice D none lang = D.head? ∧
    pickVoice [] (some uriA) lang = none := by
  refine ⟨?_, ?_, ?_, ?_, rfl⟩
  · have hA0 := find?_some_not_isEmpty _ A vA hA2
    simp [pickVoice, forcedMatch, hA1, hA2, hA0]
  · have hB0 := find?_some_not_isEmpty _ B vB hB
    simp [pickVoice, forcedMatch, hB, hB0]
  · have hC0 := find?_some_not_isEmpty _ C vC hC2
    simp [pickVoice, forcedMatch, hC1, hC2, hC0]
  · cases D with
    | nil => rfl
    | cons d ds =>
      have hfil := find?_none_filter_nil (langStartsP lang) (d :: ds) hD2
      simp [pickVoice, forcedMatch, hD1, hD2, hfil]

/-- Witness for C3 (amended). -/
theorem c3_fallback_chain_witness :
    ("u9" : String) ≠ "" ∧
    [(⟨"u9", "es-MX", "x"⟩ : Voice)].find? (fun w => w.voiceURI == "u9")
      = some ⟨"u9", "es-MX", "x"⟩ ∧
    [(⟨"u2", "fr-fr", "y"⟩ : Voice)].find? (exactLangP "fr-FR") = some ⟨"u2", "fr-fr", "y"⟩ ∧
    [(⟨"u3", "fr-CA", "z"⟩ : Voice)].find? (exactLangP "fr-FR") = none ∧
    [(⟨"u3", "fr-CA", "z"⟩ : Voice)].find? (langStartsP "fr-FR") = some ⟨"u3", "fr-CA", "z"⟩ ∧
    [(⟨"u4", "en-US", "w"⟩ : Voice)].find? (exactLangP "fr-FR") = none ∧
    [(⟨"u4", "en-US", "w"⟩ : Voice)].find? (langStartsP "fr-FR") = none ∧
    (pickVoice [⟨"u9", "es-MX", "x"⟩] (some "u9") "fr-FR" = some ⟨"u9", "es-MX", "x"⟩ ∧
      pickVoice [⟨"u2", "fr-fr", "y"⟩] none "fr-FR" = some ⟨"u2", "fr-fr", "y"⟩ ∧
      pickVoice [⟨"u3", "fr-CA", "z"⟩] none "fr-FR" = some ⟨"u3", "fr-CA", "z"⟩ ∧
      pickVoice [⟨"u4", "en-US", "w"⟩] none "fr-FR" = [(⟨"u4", "en-US", "w"⟩ : Voice)].head? ∧
      pickVoice [] (some "u9") "fr-FR" = none) :=
  ⟨by decide, by decide, by decide, by decide, by decide, by decide, by decide,
    c3_fallback_chain "fr-FR" "u9" [⟨"u9", "es-MX", "x"⟩] [⟨"u2", "fr-fr", "y"⟩]
      [⟨"u3", "fr-CA", "z"⟩] [⟨"u4", "en-US", "w"⟩] ⟨"u9", "es-MX", "x"⟩ ⟨"u2", "fr-fr", "y"⟩
      ⟨"u3", "fr-CA", "z"⟩ (by decide) (by decide) (by decide) (by decide) (by decide)
      (by decide) (by decide)⟩

/-- C4 (counterexample): the pause control is the start/pause toggle; invoked
from the Idle state (`timeLeft = 60 = total`, not running) it is not a no-op:
it starts the timer (`running` becomes true), though it emits nothing. -/
theorem c4_counterexample :
    stateOf (mkTimer 60) = Phase4.Idle ∧
    (pressToggle "A" (mkTimer 60)).1 ≠ mkTimer 60 ∧
    (pressToggle "A" (mkTimer 60)).1.running = true ∧
    (pressToggle "A" (mkTimer 60)).2 = [] := by
  decide

/-- C4 (amended): the toggle that implements Pause, invoked while Running,
emits exactly one remaining-time announcement and stops the countdown with
`timeLeft` unchanged; invoked at `timeLeft = 0` (Expired) the control is
disabled and the press is a no-op with no announcement; invoked while
stopped (Idle or Paused) it starts the timer and emits no announcement. -/
theorem c4_pause_behavior (label : String) (s s2 s3 : TimerState)
    (h1 : s.running = true) (h2 : s2.timeLeft = 0) (h3 : s3.running = false) :
    toggleRunning label s =
      ({ s with running := false },
        [Event.remaining (remainingSpeechText label s.timeLeft Lang.es)]) ∧
    pressToggle label s2 = (s2, []) ∧
    toggleRunning label s3 = ({ s3 with running := true }, []) := by
  refine ⟨?_, ?_, ?_⟩
  · simp [toggleRunning, h1]
  · simp [pressToggle, h2]
  · simp [toggleRunning, h3]

/-- Witness for C4 (amended). -/
theorem c4_pause_behavior_witness :
    (⟨120, 45, true, false, false⟩ : TimerState).running = true ∧
    (⟨60, 0, false, true, true⟩ : TimerState).timeLeft = 0 ∧
    (⟨60, 60, false, false, false⟩ : TimerState).running = false ∧
    (toggleRunning "A" ⟨120, 45, true, false, false⟩ =
        (⟨120, 45, false, false, false⟩,
          [Event.remaining (remainingSpeechText "A" 45 Lang.es)]) ∧
      pressToggle "A" ⟨60, 0, false, true, true⟩ = (⟨60, 0, false, true, true⟩, []) ∧
      toggleRunning "A" ⟨60, 60, false, false, false⟩ = (⟨60, 60, true, false, false⟩, [])) :=
  ⟨by decide, by decide, by decide,
    c4_pause_behavior "A" ⟨120, 45, true, false, false⟩ ⟨60, 0, false, true, true⟩
      ⟨60, 60, false, false, false⟩ (by decide) (by decide) (by decide)⟩

/-- C5 (counterexample): `speak` cancels before the asynchronous voice wait,
not atomically with its own enqueue.  In the cooperative interleaving where
both calls cancel first and the newer call issues its utterance before the
older one does, both utterances end up queued — the older one behind the
newer — so the newer call has not preempted the older one. -/
theorem c5_counterexample :
    Interleave (speakScript "older") (speakScript "newer")
      [SpeakAct.cancel, SpeakAct.cancel, SpeakAct.issue "newer", SpeakAct.issue "older"] ∧
    runActs [] [SpeakAct.cancel, SpeakAct.cancel, SpeakAct.issue "newer", SpeakAct.issue "older"]
      = ["newer", "older"] ∧
    ¬(runActs []
        [SpeakAct.cancel, SpeakAct.cancel, SpeakAct.issue "newer", SpeakAct.issue "older"]).length
        ≤ 1 := by
  refine ⟨?_, by decide, by decide⟩
  exact Interleave.left SpeakAct.cancel
    (Interleave.right SpeakAct.cancel
      (Interleave.right (SpeakAct.issue "newer")
        (Interleave.left (SpeakAct.issue "older") Interleave.nil)))

/-- C5 (amended): every `speak` call cancels the queued utterances as its
first action, before the asynchronous voice-catalog wait; whenever `speak`
calls do not interleave across that wait (sequential composition, from any
starting queue), at most one utterance remains queued and it is the newest.
The preemption guarantee holds only for non-interleaved calls. -/
theorem c5_cancel_before_speak (older newer : String) (q : List String) :
    (speakScript newer).head? = some SpeakAct.cancel ∧
    runActs q (speakScript older ++ speakScript newer) = [newer] ∧
    runActs q (speakScript newer) = [newer] :=
  ⟨rfl, rfl, rfl⟩

/-- C6 (counterexample): at remaining value 0 the source phrase uses the
singular unit word with the value 0, where the claimed rule (singular
exactly at value 1) demands the plural. -/
theorem c6_counterexample :
    remainingSpeechText "A" 0 Lang.es = "A, te quedan 0 segundo." ∧
    specPhrase "A" 0 Lang.es = "A, te quedan 0 segundos." ∧
    remainingSpeechText "A" 0 Lang.es ≠ specPhrase "A" 0 Lang.es := by
  decide

/-- C6 (amended): for every remaining-seconds value `≥ 1` and both locales,
the spoken phrase equals the spec-side phrase: singular unit word exactly at
value 1, plural otherwise, zero-valued units omitted. -/
theorem c6_pluralization (label : String) (lang : Lang) (v : Int) (h : 1 ≤ v) :
    remainingSpeechText label v lang = specPhrase label v lang := by
  have h0 : (0 : Int) ≤ v := by omega
  lift v to ℕ using h0 with k
  have hk : 1 ≤ k := by exact_mod_cast h
  have hm : jsFloorDiv (k : Int) 60 = ((k / 60 : ℕ) : Int) := by
    unfold jsFloorDiv
    rw [Int.fdiv_eq_ediv _ (by norm_num)]
    push_cast
    ring
  have hs : jsRem (k : Int) 60 = ((k % 60 : ℕ) : Int) := by
    unfold jsRem
    rw [Int.tmod_eq_emod (Int.natCast_nonneg k) (by norm_num)]
    push_cast
    ring
  cases lang with
  | fr =>
    simp only [remainingSpeechText, specPhrase, hm, hs]
    by_cases h1 : (0 : Int) < ((k / 60 : ℕ) : Int) ∧ (0 : Int) < ((k % 60 : ℕ) : Int)
    · rw [if_pos h1, if_pos h1,
        pluralMark_eq_spec ((k / 60 : ℕ) : Int) (by omega),
        pluralMark_eq_spec ((k % 60 : ℕ) : Int) (by omega)]
    · rw [if_neg h1, if_neg h1]
      by_cases h2 : (0 : Int) < ((k / 60 : ℕ) : Int)
      · rw [if_pos h2, if_pos h2, pluralMark_eq_spec ((k / 60 : ℕ) : Int) (by omega)]
      · rw [if_neg h2, if_neg h2, pluralMark_eq_spec ((k % 60 : ℕ) : Int) (by omega)]
  | es =>
    simp only [remainingSpeechText, specPhrase, hm, hs]
    by_cases h1 : (0 : Int) < ((k / 60 : ℕ) : Int) ∧ (0 : Int) < ((k % 60 : ℕ) : Int)
    · rw [if_pos h1, if_pos h1,
        pluralMark_eq_spec ((k / 60 : ℕ) : Int) (by omega),
        pluralMark_eq_spec ((k % 60 : ℕ) : Int) (by omega)]
    · rw [if_neg h1, if_neg h1]
      by_cases h2 : (0 : Int) < ((k / 60 : ℕ) : Int)
      · rw [if_pos h2, if_pos h2, pluralMark_eq_spec ((k / 60 : ℕ) : Int) (by omega)]
      · rw [if_neg h2, if_neg h2, pluralMark_eq_spec ((k % 60 : ℕ) : Int) (by omega)]

/-- Witness for C6 (amended) at 61 seconds in French. -/
theorem c6_pluralization_witness :
    (1 : Int) ≤ 61 ∧ remainingSpeechText "A" 61 Lang.fr = specPhrase "A" 61 Lang.fr :=
  ⟨by decide, c6_pluralization "A" Lang.fr 61 (by decide)⟩

end Debate
